import Mathlib

/-!
Shallow embedding of the streaming chat transport of the gemini-rag
frontend:

* `src/frontend/src/constants/config.ts` — configuration constants;
* `src/frontend/src/types/index.ts` — wire envelope and message types;
* `src/frontend/src/contexts/WebSocketContext.tsx` — the stream
  aggregator / message dispatcher `handleWebSocketMessage` and the
  context-level `handleSendMessage`;
* `ChatWebSocketManager` (websocket service) — connection state machine,
  heartbeat, reconnect backoff, `sendMessage`, `disconnect`;
* `src/frontend/src/hooks/useChat.ts` — `handleSendMessage` hook;
* `ChatInterface.handleSend` — the UI-level send guard.

JavaScript numbers that matter here are integral millisecond counts or
exact decimal constants; they are modelled as `Nat`/`Int`/`ℚ`.
Optional (possibly-`undefined`) fields are modelled with `Option`.
-/

namespace GeminiRag

/-! ### Constants (src/frontend/src/constants/config.ts) -/

def MAX_MESSAGES : Nat := 20

def MAX_RECONNECT_ATTEMPTS : Nat := 5

def BASE_RECONNECT_DELAY : ℚ := 1000

def DEFAULT_TOP_K : Nat := 5

def DEFAULT_SIMILARITY_THRESHOLD : ℚ := 7/10

/-! ### JavaScript `||` on strings

`a || b` in JS yields `b` when `a` is `undefined`, `null` or the empty
string (falsy); otherwise `a`. -/

def jsOrStr (o : Option String) (d : String) : String :=
  match o with
  | some s => if s = "" then d else s
  | none => d

/-- JS `s || null` for an optional string: the empty string is falsy. -/
def jsOrNull (o : Option String) : Option String :=
  match o with
  | some s => if s = "" then none else some s
  | none => none

/-- JS `message.trim()`: strip leading and trailing whitespace. -/
def jsTrim (s : String) : String :=
  String.mk
    (((s.data.dropWhile Char.isWhitespace).reverse.dropWhile
      Char.isWhitespace).reverse)

/-! ### Wire types (src/frontend/src/types/index.ts) -/

structure RetrievedFileInfo where
  gemini_file_name : String
  display_name : String
  similarity_score : ℚ
deriving DecidableEq, Repr

/-- Client→server query envelope (`WebSocketMessage`). -/
structure WebSocketMessage where
  message : String
  model : String
  selected_files : Option (List String)
  system_prompt : Option String
  enable_auto_retrieval : Bool
  top_k : Nat
  similarity_threshold : ℚ
deriving DecidableEq, Repr

/-- Server→client envelope (`WebSocketResponse`).  The runtime dispatch
is on the string field `type`; the TS union lists
`status | response | error | stream | complete`. -/
structure WebSocketResponse where
  type : String
  message : Option String
  chunk : Option String
  success : Option Bool
  model_used : Option String
  files_used : Option Nat
  prompt_tokens : Option Nat
  completion_tokens : Option Nat
  total_tokens : Option Nat
  full_response : Option String
  retrieved_files : Option (List RetrievedFileInfo)
deriving DecidableEq, Repr

/-- An envelope with the given tag and all optional fields absent. -/
def emptyResponse (t : String) : WebSocketResponse :=
  ⟨t, none, none, none, none, none, none, none, none, none, none⟩

def mkStreamEvent (c : String) : WebSocketResponse :=
  { emptyResponse "stream" with chunk := some c }

def mkCompleteEvent (sc : Option Bool) (pt ct tt : Option Nat)
    (rf : Option (List RetrievedFileInfo)) : WebSocketResponse :=
  { emptyResponse "complete" with
      success := sc, prompt_tokens := pt, completion_tokens := ct,
      total_tokens := tt, retrieved_files := rf }

def mkErrorEvent (msg : Option String) : WebSocketResponse :=
  { emptyResponse "error" with message := msg }

def mkResponseEvent (msg : Option String) (sc : Option Bool)
    (fu : Option Nat) (mu : Option String)
    (pt ct tt : Option Nat) : WebSocketResponse :=
  { emptyResponse "response" with
      message := msg, success := sc, files_used := fu, model_used := mu,
      prompt_tokens := pt, completion_tokens := ct, total_tokens := tt }

inductive Sender where
  | user
  | bot
deriving DecidableEq, Repr

/-- Structure `ChatMessage` from types/index.ts.  Optional TS fields that are read
for truthiness (`isError`, `isStreaming`) are modelled as `Bool` with
`false` standing for `undefined`; `retrievedFiles` likewise as a list
with `[]` for `undefined`. -/
structure ChatMessage where
  id : Nat
  text : String
  sender : Sender
  timestamp : Nat
  success : Option Bool
  isError : Bool
  filesUsed : Option Nat
  modelUsed : Option String
  promptTokens : Option Nat
  completionTokens : Option Nat
  totalTokens : Option Nat
  selectedFilesCount : Option Nat
  model : Option String
  isStreaming : Bool
  retrievedFiles : List RetrievedFileInfo
deriving DecidableEq, Repr

def emptyChatMessage : ChatMessage :=
  ⟨0, "", .user, 0, none, false, none, none, none, none, none, none, none,
    false, []⟩

/-- The React state managed by `WebSocketProvider`: the message list and
the loading flag. -/
structure CtxState where
  messages : List ChatMessage
  isLoading : Bool
deriving DecidableEq, Repr

/-- The `MAX_MESSAGES` sliding window:
`newMessages.length > MAX_MESSAGES ? newMessages.slice(-MAX_MESSAGES) :
newMessages`. -/
def capMessages (l : List ChatMessage) : List ChatMessage :=
  if MAX_MESSAGES < l.length then l.drop (l.length - MAX_MESSAGES) else l

/-- The new streaming message created by the `stream` branch when the
last message is not a streaming bot message. -/
def newStreamMessage (now : Nat) (data : WebSocketResponse) : ChatMessage :=
  { emptyChatMessage with
      id := now + 1
      text := jsOrStr data.chunk ""
      sender := .bot
      timestamp := now
      isStreaming := true
      filesUsed := data.files_used
      modelUsed := data.model_used }

/-- Branch for `data.type === 'stream'` of `handleWebSocketMessage`. -/
def streamBranch (now : Nat) (data : WebSocketResponse) (st : CtxState) :
    CtxState :=
  match st.messages.getLast? with
  | some lastMessage =>
    if lastMessage.sender = .bot ∧ lastMessage.isStreaming = true then
      { st with messages := st.messages.dropLast ++
          [{ lastMessage with
              text := lastMessage.text ++ jsOrStr data.chunk ""
              filesUsed := data.files_used
              modelUsed := data.model_used }] }
    else
      { st with messages :=
          capMessages (st.messages ++ [newStreamMessage now data]) }
  | none =>
    { st with messages :=
        capMessages (st.messages ++ [newStreamMessage now data]) }

/-- Branch for `data.type === 'complete'`: finalize the trailing streaming
message (if any) and clear the loading flag.
`success: data.success !== false` and
`retrievedFiles: data.retrieved_files || []`. -/
def completeBranch (data : WebSocketResponse) (st : CtxState) : CtxState :=
  let msgs :=
    match st.messages.getLast? with
    | some lastMessage =>
      if lastMessage.isStreaming = true then
        st.messages.dropLast ++
          [{ lastMessage with
              isStreaming := false
              success := some (decide (data.success ≠ some false))
              promptTokens := data.prompt_tokens
              completionTokens := data.completion_tokens
              totalTokens := data.total_tokens
              retrievedFiles := data.retrieved_files.getD [] }]
      else st.messages
    | none => st.messages
  { messages := msgs, isLoading := false }

/-- Branch for `data.type === 'response'`: non-streaming fallback message.
`isError: !data.success` is true when `success` is `false` or absent. -/
def responseBranch (now : Nat) (data : WebSocketResponse) (st : CtxState) :
    CtxState :=
  let botMessage : ChatMessage :=
    { emptyChatMessage with
        id := now + 1
        text := jsOrStr data.message ""
        sender := .bot
        timestamp := now
        success := data.success
        filesUsed := data.files_used
        modelUsed := data.model_used
        promptTokens := data.prompt_tokens
        completionTokens := data.completion_tokens
        totalTokens := data.total_tokens
        isError := decide (data.success ≠ some true) }
  { messages := capMessages (st.messages ++ [botMessage])
    isLoading := false }

/-- The error message appended by the `error` branch:
`text: data.message || 'An error occurred'`. -/
def errorChatMessage (now : Nat) (msg : Option String) : ChatMessage :=
  { emptyChatMessage with
      id := now + 1
      text := jsOrStr msg "An error occurred"
      sender := .bot
      timestamp := now
      success := some false
      isError := true }

/-- Branch for `data.type === 'error'`: append an explicit error message. -/
def errorBranch (now : Nat) (data : WebSocketResponse) (st : CtxState) :
    CtxState :=
  { messages := capMessages (st.messages ++ [errorChatMessage now data.message])
    isLoading := false }

/-- Dispatcher `handleWebSocketMessage` of WebSocketContext.tsx: dispatch on the
envelope's `type` string.  The source is an `if`/`else if` chain over
the five known tags with no trailing `else`; an envelope whose tag
matches none of them leaves the state untouched. -/
def handleWebSocketMessage (now : Nat) (data : WebSocketResponse)
    (st : CtxState) : CtxState :=
  match data.type with
  | "status" => st
  | "stream" => streamBranch now data st
  | "complete" => completeBranch data st
  | "response" => responseBranch now data st
  | "error" => errorBranch now data st
  | _ => st

/-- Fold a list of incoming envelopes through the dispatcher. -/
def processEvents (now : Nat) (evs : List WebSocketResponse)
    (st : CtxState) : CtxState :=
  evs.foldl (fun s e => handleWebSocketMessage now e s) st

/-- Is the last message of the list a bot message still streaming?
(the condition of the append path of the `stream` branch). -/
def lastIsBotStreaming (l : List ChatMessage) : Bool :=
  match l.getLast? with
  | some m => m.sender == .bot && m.isStreaming
  | none => false

/-- Concatenation of chunk texts in arrival order. -/
def concatAll : List String → String
  | [] => ""
  | c :: cs => c ++ concatAll cs

/-- The trailing streaming message after absorbing a list of plain text
chunk envelopes (each carrying no `files_used`/`model_used`). -/
def chunkAcc (m : ChatMessage) : List String → ChatMessage
  | [] => m
  | c :: cs =>
    chunkAcc { m with text := m.text ++ c, filesUsed := none,
                      modelUsed := none } cs

/-! ### ChatWebSocketManager (the enhanced websocket service) -/

inductive WsStatus where
  | disconnected
  | connecting
  | connected
  | error
deriving DecidableEq, Repr

/-- A frame written to the socket: either the literal heartbeat `ping`
or a serialized JSON query envelope. -/
inductive SentFrame where
  | ping
  | json (m : WebSocketMessage)
deriving DecidableEq, Repr

/-- The manager's mutable fields.  `wsOpen` stands for
`ws !== null && ws.readyState === WebSocket.OPEN`; handler sets are
modelled as lists of opaque handler identifiers; `sent` records the
frames handed to `ws.send` on the open channel. -/
structure MState where
  wsOpen : Bool
  messageHandlers : List Nat
  statusHandlers : List Nat
  reconnectAttempts : Nat
  maxReconnectAttempts : Nat
  reconnectDelay : ℚ
  shouldReconnect : Bool
  status : WsStatus
  connectionPromise : Bool
  heartbeatActive : Bool
  lastPongTime : Int
  sent : List SentFrame
deriving DecidableEq, Repr

/-- Predicate `isConnected(): ws?.readyState === WebSocket.OPEN`. -/
def isConnected (s : MState) : Bool := s.wsOpen

/-- An inbound raw socket frame: the literal `pong` text, a frame whose
text parses as a JSON envelope, or unparsable text. -/
inductive RawFrame where
  | pongText
  | json (e : WebSocketResponse)
  | malformed
deriving DecidableEq, Repr

/-- The manager's `ws.onmessage`: the literal `pong` is consumed before
any JSON parsing (it only refreshes `lastPongTime` and is never handed
to the message handlers); a parsable frame is delivered verbatim to
every registered handler; a parse failure is logged and dropped.  The
second component is the envelope delivered to the handlers, if any. -/
def managerOnMessage (now : Int) (f : RawFrame) (s : MState) :
    MState × Option WebSocketResponse :=
  match f with
  | .pongText => ({ s with lastPongTime := now }, none)
  | .json e => (s, some e)
  | .malformed => (s, none)

/-- Manager `sendMessage`: throw when not connected (nothing is
queued and the state is untouched), otherwise serialize the envelope
and hand it to `ws.send`.  (A throwing `ws.send` on an open socket is
re-thrown as `Failed to send message`; the normal path is modelled.) -/
def sendMessageWS (s : MState) (message model : String)
    (selectedFiles : Option (List String)) (systemPrompt : Option String)
    (enableAutoRetrieval : Bool) (topK : Nat) (similarityThreshold : ℚ) :
    MState × Except String Unit :=
  if isConnected s = true then
    let data : WebSocketMessage :=
      { message := message
        model := model
        selected_files := selectedFiles
        system_prompt := jsOrNull systemPrompt
        enable_auto_retrieval := enableAutoRetrieval
        top_k := topK
        similarity_threshold := similarityThreshold }
    ({ s with sent := s.sent ++ [.json data] }, .ok ())
  else
    (s, .error "WebSocket is not connected")

/-- Policy `calculateReconnectDelay`: exponential backoff with jitter.
`jitter = Math.random() * 1000` is passed in as a parameter with
`0 ≤ jitter < 1000`. -/
def calculateReconnectDelay (s : MState) (jitter : ℚ) : ℚ :=
  let baseDelay := s.reconnectDelay * 2 ^ (s.reconnectAttempts - 1)
  let maxDelay : ℚ := 30000
  min (baseDelay + jitter) maxDelay

/-- Method `startHeartbeat` arms the interval timer; the second component is
the fixed probe period in milliseconds (`setInterval(..., 30000)`). -/
def startHeartbeat (s : MState) : MState × Nat :=
  ({ s with heartbeatActive := true }, 30000)

def stopHeartbeat (s : MState) : MState :=
  { s with heartbeatActive := false }

/-- What one heartbeat interval firing decides to do. -/
inductive HbAction where
  | sendPing
  | forceReconnect
deriving DecidableEq, Repr

/-- One firing of the heartbeat interval at wall-clock time `now`:
when connected, a missing liveness ack for more than 35000 ms forces a
reconnect (no close event is involved); otherwise the literal `ping`
frame is sent. -/
def heartbeatTick (now : Int) (s : MState) : MState × Option HbAction :=
  if isConnected s = true then
    if now - s.lastPongTime > 35000 then
      (s, some .forceReconnect)
    else
      ({ s with sent := s.sent ++ [.ping] }, some .sendPing)
  else
    (s, none)

/-- Method `attemptReconnect`, with `doConnect`'s synchronous effect inlined.
`outcomes` feeds the result of each successive connection attempt
(`true` = the socket opened).  The function first checks exhaustion
against the current counter, then increments it, sleeps, and (still
willing) runs `doConnect`, which recursively re-enters
`attemptReconnect` on failure.  An empty `outcomes` list leaves the
attempt pending mid-sleep. -/
def attemptReconnect (s : MState) (outcomes : List Bool) : MState :=
  if s.maxReconnectAttempts ≤ s.reconnectAttempts then
    { s with status := .error, shouldReconnect := false }
  else
    let s1 := { s with reconnectAttempts := s.reconnectAttempts + 1 }
    match outcomes with
    | [] => s1
    | o :: rest =>
      if s1.shouldReconnect = true then
        -- doConnect: connecting, shouldReconnect := true, then attempt
        let s2 := { s1 with status := .connecting, shouldReconnect := true }
        if o then
          { s2 with reconnectAttempts := 0, status := .connected,
                    wsOpen := true, heartbeatActive := true }
        else
          let s3 := { s2 with status := .error }
          if s3.shouldReconnect = true then attemptReconnect s3 rest else s3
      else s1
termination_by outcomes.length

/-- An explicit `connect()` call (through `doConnect`); `o` is the
outcome of the fresh socket, `rest` feeds any reconnect attempts that a
failure triggers. -/
def connectCall (s : MState) (o : Bool) (rest : List Bool) : MState :=
  if s.connectionPromise = true ∨ isConnected s = true then s
  else
    let s1 := { s with connectionPromise := true, status := .connecting,
                       shouldReconnect := true }
    let s2 :=
      if o then
        { s1 with reconnectAttempts := 0, status := .connected,
                  wsOpen := true, heartbeatActive := true }
      else
        let sErr := { s1 with status := .error }
        if sErr.shouldReconnect = true then attemptReconnect sErr rest
        else sErr
    { s2 with connectionPromise := false }

/-- The socket's `onclose` handler: stop the heartbeat; reconnect only
when still willing and the close was not clean, else settle on
`disconnected`. -/
def onClose (wasClean : Bool) (s : MState) (outcomes : List Bool) : MState :=
  let s1 := { s with heartbeatActive := false, wsOpen := false }
  if s1.shouldReconnect = true ∧ wasClean = false then
    attemptReconnect { s1 with status := .connecting } outcomes
  else
    { s1 with status := .disconnected }

/-- Method `disconnect(permanent)`: a permanent disconnect forbids reconnect,
stops the heartbeat, closes the socket cleanly, clears both handler
sets and reports `disconnected`; a non-permanent one only stops the
heartbeat and closes the socket. -/
def disconnect (permanent : Bool) (s : MState) : MState :=
  let s1 := if permanent then { s with shouldReconnect := false } else s
  let s2 := { s1 with heartbeatActive := false, connectionPromise := false,
                      wsOpen := false }
  if permanent then
    { s2 with status := .disconnected, messageHandlers := [],
              statusHandlers := [] }
  else s2

/-! ### The send path: context → manager, hook → context, UI guard -/

/-- The retrieval settings the `useChat` hook keeps in local storage. -/
structure ChatConfig where
  selectedModel : String
  systemPrompt : String
  topK : Nat
  similarityThreshold : ℚ
deriving DecidableEq, Repr

/-- The outward effect of a context-level send. -/
inductive SendEffect where
  /-- envelope sent over the open duplex channel -/
  | ws (env : WebSocketMessage)
  /-- HTTP fallback request (message, model, selected files, prompt) -/
  | http (message model : String) (selectedFiles : Option (List String))
      (systemPrompt : Option String)
deriving DecidableEq, Repr

/-- The context's `handleSendMessage` (WebSocketContext.tsx).  It
declares exactly four data parameters; after appending the user message
and raising the loading flag it sends over the socket with the
hard-coded trailing arguments `(true, 5, 0.6)` when connected, else
falls back to HTTP. -/
def ctxSendMessage (now : Nat) (message model : String)
    (selectedFiles : Option (List String)) (systemPrompt : Option String)
    (connected : Bool) (st : CtxState) : CtxState × SendEffect :=
  let userMessage : ChatMessage :=
    { emptyChatMessage with
        id := now
        text := message
        sender := .user
        timestamp := now
        model := some model
        selectedFilesCount := some ((selectedFiles.getD []).length) }
  let st1 : CtxState :=
    { messages := capMessages (st.messages ++ [userMessage])
      isLoading := true }
  if connected = true then
    let env : WebSocketMessage :=
      { message := message
        model := model
        selected_files := selectedFiles
        system_prompt := jsOrNull systemPrompt
        enable_auto_retrieval := true
        top_k := 5
        similarity_threshold := 6/10 }
    (st1, .ws env)
  else
    (st1, .http message model selectedFiles systemPrompt)

/-- The `useChat` hook's `handleSendMessage`: empty messages are
refused; otherwise it invokes the context's send with
`(message, selectedModel, null, systemPrompt || null, …)` — the two
extra arguments `topK` and `similarityThreshold` that the hook supplies
are discarded because the context function declares only four data
parameters. -/
def hookHandleSendMessage (now : Nat) (cfg : ChatConfig) (message : String)
    (connected : Bool) (st : CtxState) : CtxState × Option SendEffect :=
  if jsTrim message = "" then (st, none)
  else
    let r := ctxSendMessage now message cfg.selectedModel none
      (jsOrNull (some cfg.systemPrompt)) connected st
    (r.1, some r.2)

/-- Guard `ChatInterface.handleSend`: refuse when the trimmed input is empty
or a reply is already in flight (`isLoading`), else forward the trimmed
text to the hook. -/
def uiHandleSend (now : Nat) (cfg : ChatConfig) (inputValue : String)
    (connected : Bool) (st : CtxState) : CtxState × Option SendEffect :=
  if jsTrim inputValue = "" ∨ st.isLoading = true then (st, none)
  else hookHandleSendMessage now cfg (jsTrim inputValue) connected st

/-- Observable shape of a chat message: text, streaming flag, error
flag. -/
def msgView (m : ChatMessage) : String × Bool × Bool :=
  (m.text, m.isStreaming, m.isError)

/-! ## Lemmas about the dispatcher -/

theorem jsOrStr_some_default_empty (c : String) : jsOrStr (some c) "" = c := by
  by_cases h : c = "" <;> simp [jsOrStr, h]

theorem jsOrNull_idem (o : Option String) :
    jsOrNull (jsOrNull o) = jsOrNull o := by
  cases o with
  | none => rfl
  | some s => by_cases h : s = "" <;> simp [jsOrNull, h]

theorem handle_type_stream (now : Nat) (data : WebSocketResponse)
    (st : CtxState) (h : data.type = "stream") :
    handleWebSocketMessage now data st = streamBranch now data st := by
  unfold handleWebSocketMessage
  rw [h]
  rfl

theorem handle_type_complete (now : Nat) (data : WebSocketResponse)
    (st : CtxState) (h : data.type = "complete") :
    handleWebSocketMessage now data st = completeBranch data st := by
  unfold handleWebSocketMessage
  rw [h]
  rfl

theorem handle_type_response (now : Nat) (data : WebSocketResponse)
    (st : CtxState) (h : data.type = "response") :
    handleWebSocketMessage now data st = responseBranch now data st := by
  unfold handleWebSocketMessage
  rw [h]
  rfl

theorem handle_type_error (now : Nat) (data : WebSocketResponse)
    (st : CtxState) (h : data.type = "error") :
    handleWebSocketMessage now data st = errorBranch now data st := by
  unfold handleWebSocketMessage
  rw [h]
  rfl

theorem handle_type_status (now : Nat) (data : WebSocketResponse)
    (st : CtxState) (h : data.type = "status") :
    handleWebSocketMessage now data st = st := by
  unfold handleWebSocketMessage
  rw [h]
  rfl

/-- An envelope whose tag is none of the five known ones leaves the
state untouched. -/
theorem handle_unknown_tag (now : Nat) (data : WebSocketResponse)
    (st : CtxState)
    (h : data.type ∉
      (["status", "stream", "complete", "response", "error"] :
        List String)) :
    handleWebSocketMessage now data st = st := by
  unfold handleWebSocketMessage
  split <;> simp_all

theorem streamBranch_appendPath (now : Nat) (data : WebSocketResponse)
    (ms : List ChatMessage) (m : ChatMessage) (b : Bool)
    (hs : m.sender = .bot) (hstr : m.isStreaming = true) :
    streamBranch now data ⟨ms ++ [m], b⟩ =
      ⟨ms ++ [{ m with text := m.text ++ jsOrStr data.chunk ""
                       filesUsed := data.files_used
                       modelUsed := data.model_used }], b⟩ := by
  unfold streamBranch
  simp [List.getLast?_concat, List.dropLast_concat, hs, hstr]

theorem streamBranch_newPath (now : Nat) (data : WebSocketResponse)
    (st : CtxState) (h : lastIsBotStreaming st.messages = false) :
    streamBranch now data st =
      { st with messages :=
          capMessages (st.messages ++ [newStreamMessage now data]) } := by
  unfold streamBranch
  unfold lastIsBotStreaming at h
  cases hl : st.messages.getLast? with
  | none => simp [hl]
  | some m =>
    rw [hl] at h
    simp only [Bool.and_eq_false_imp, beq_iff_eq] at h
    by_cases hsender : m.sender = .bot
    · simp [hl, h hsender]
    · simp [hl, hsender]

theorem completeBranch_finalize (data : WebSocketResponse)
    (ms : List ChatMessage) (m : ChatMessage) (b : Bool)
    (hstr : m.isStreaming = true) :
    completeBranch data ⟨ms ++ [m], b⟩ =
      ⟨ms ++ [{ m with
          isStreaming := false
          success := some (decide (data.success ≠ some false))
          promptTokens := data.prompt_tokens
          completionTokens := data.completion_tokens
          totalTokens := data.total_tokens
          retrievedFiles := data.retrieved_files.getD [] }], false⟩ := by
  unfold completeBranch
  simp [List.getLast?_concat, List.dropLast_concat, hstr]

theorem capMessages_concat (l : List ChatMessage) (a : ChatMessage) :
    ∃ ms, capMessages (l ++ [a]) = ms ++ [a] := by
  unfold capMessages
  by_cases h : MAX_MESSAGES < (l ++ [a]).length
  · refine ⟨l.drop ((l ++ [a]).length - MAX_MESSAGES), ?_⟩
    rw [if_pos h, List.drop_append_of_le_length]
    simp only [List.length_append, List.length_singleton, MAX_MESSAGES] at h ⊢
    omega
  · exact ⟨l, by rw [if_neg h]⟩

theorem capMessages_of_lt (l : List ChatMessage) (a : ChatMessage)
    (h : l.length < MAX_MESSAGES) :
    capMessages (l ++ [a]) = l ++ [a] := by
  unfold capMessages
  rw [if_neg]
  simp only [List.length_append, List.length_singleton]
  omega

theorem chunkAcc_text (cs : List String) :
    ∀ m : ChatMessage, (chunkAcc m cs).text = m.text ++ concatAll cs := by
  induction cs with
  | nil => intro m; simp [chunkAcc, concatAll]
  | cons c cs ih =>
    intro m
    show (chunkAcc _ cs).text = _
    rw [ih]
    simp [concatAll, String.append_assoc]

theorem chunkAcc_sender (cs : List String) :
    ∀ m : ChatMessage, (chunkAcc m cs).sender = m.sender := by
  induction cs with
  | nil => intro m; rfl
  | cons c cs ih => intro m; exact ih _

theorem chunkAcc_isStreaming (cs : List String) :
    ∀ m : ChatMessage, (chunkAcc m cs).isStreaming = m.isStreaming := by
  induction cs with
  | nil => intro m; rfl
  | cons c cs ih => intro m; exact ih _

/-- Running a list of plain chunk envelopes over a state whose last
message is a streaming bot message folds their texts into it. -/
theorem processEvents_stream_run (now : Nat) (cs : List String) :
    ∀ (ms : List ChatMessage) (m : ChatMessage) (b : Bool),
      m.sender = .bot → m.isStreaming = true →
      processEvents now (cs.map mkStreamEvent) ⟨ms ++ [m], b⟩ =
        ⟨ms ++ [chunkAcc m cs], b⟩ := by
  induction cs with
  | nil => intro ms m b hs hstr; rfl
  | cons c cs ih =>
    intro ms m b hs hstr
    have h1 : handleWebSocketMessage now (mkStreamEvent c) ⟨ms ++ [m], b⟩ =
        ⟨ms ++ [{ m with text := m.text ++ c, filesUsed := none,
                         modelUsed := none }], b⟩ := by
      rw [handle_type_stream now _ _ rfl,
        streamBranch_appendPath now _ ms m b hs hstr]
      simp [mkStreamEvent, emptyResponse, jsOrStr_some_default_empty]
    show processEvents now (mkStreamEvent c :: cs.map mkStreamEvent) _ = _
    unfold processEvents
    rw [List.foldl_cons, h1]
    exact ih ms _ b hs hstr

/-! ## Claim theorems -/

/-- C1.  Stream aggregation: in a session whose message list does not
already end in a streaming bot message, a nonempty run of chunk
envelopes followed by a `complete` event leaves as final message the
concatenation of the chunk texts in arrival order, with the streaming
flag cleared and the completion metadata (token counts, retrieved-file
list) attached, and the loading flag cleared. -/
theorem C1_stream_aggregation (now : Nat) (st : CtxState) (c : String)
    (cs : List String) (sc : Option Bool) (pt ct tt : Option Nat)
    (rf : Option (List RetrievedFileInfo))
    (h : lastIsBotStreaming st.messages = false) :
    ∃ m : ChatMessage,
      (processEvents now ((c :: cs).map mkStreamEvent ++
        [mkCompleteEvent sc pt ct tt rf]) st).messages.getLast? = some m ∧
      m.text = concatAll (c :: cs) ∧
      m.isStreaming = false ∧
      m.sender = .bot ∧
      m.promptTokens = pt ∧
      m.completionTokens = ct ∧
      m.totalTokens = tt ∧
      m.retrievedFiles = rf.getD [] ∧
      (processEvents now ((c :: cs).map mkStreamEvent ++
        [mkCompleteEvent sc pt ct tt rf]) st).isLoading = false := by
  obtain ⟨ms0, hcap⟩ :=
    capMessages_concat st.messages (newStreamMessage now (mkStreamEvent c))
  have h1 : handleWebSocketMessage now (mkStreamEvent c) st =
      ⟨ms0 ++ [newStreamMessage now (mkStreamEvent c)], st.isLoading⟩ := by
    rw [handle_type_stream now _ st rfl, streamBranch_newPath now _ st h,
      hcap]
  have h2 : processEvents now ((c :: cs).map mkStreamEvent) st =
      ⟨ms0 ++ [chunkAcc (newStreamMessage now (mkStreamEvent c)) cs],
        st.isLoading⟩ := by
    have hrun := processEvents_stream_run now cs ms0
      (newStreamMessage now (mkStreamEvent c)) st.isLoading rfl rfl
    calc processEvents now ((c :: cs).map mkStreamEvent) st
        = processEvents now (cs.map mkStreamEvent)
            (handleWebSocketMessage now (mkStreamEvent c) st) := rfl
      _ = _ := by rw [h1]; exact hrun
  have hstr : (chunkAcc (newStreamMessage now (mkStreamEvent c)) cs).isStreaming
      = true := by
    rw [chunkAcc_isStreaming]; rfl
  have h3 : processEvents now ((c :: cs).map mkStreamEvent ++
      [mkCompleteEvent sc pt ct tt rf]) st =
      ⟨ms0 ++ [{ chunkAcc (newStreamMessage now (mkStreamEvent c)) cs with
          isStreaming := false
          success := some (decide (sc ≠ some false))
          promptTokens := pt
          completionTokens := ct
          totalTokens := tt
          retrievedFiles := rf.getD [] }], false⟩ := by
    calc processEvents now ((c :: cs).map mkStreamEvent ++
        [mkCompleteEvent sc pt ct tt rf]) st
        = handleWebSocketMessage now (mkCompleteEvent sc pt ct tt rf)
            (processEvents now ((c :: cs).map mkStreamEvent) st) := by
          unfold processEvents
          rw [List.foldl_append]
          rfl
      _ = _ := by
          rw [h2, handle_type_complete now _ _ rfl,
            completeBranch_finalize _ ms0 _ st.isLoading hstr]
          rfl
  refine ⟨{ chunkAcc (newStreamMessage now (mkStreamEvent c)) cs with
      isStreaming := false
      success := some (decide (sc ≠ some false))
      promptTokens := pt
      completionTokens := ct
      totalTokens := tt
      retrievedFiles := rf.getD [] }, ?_, ?_, rfl, ?_, rfl, rfl, rfl, rfl, ?_⟩
  · rw [h3]
    exact List.getLast?_concat _
  · show (chunkAcc (newStreamMessage now (mkStreamEvent c)) cs).text = _
    rw [chunkAcc_text]
    show jsOrStr (some c) "" ++ concatAll cs = concatAll (c :: cs)
    rw [jsOrStr_some_default_empty]
    rfl
  · show (chunkAcc (newStreamMessage now (mkStreamEvent c)) cs).sender = _
    rw [chunkAcc_sender]
    rfl
  · rw [h3]

theorem C1_stream_aggregation_witness :
    lastIsBotStreaming (CtxState.mk [] true).messages = false ∧
    concatAll ["Hel", "lo"] = "Hello" ∧
    ∃ m : ChatMessage,
      (processEvents 0 ((["Hel", "lo"] : List String).map mkStreamEvent ++
        [mkCompleteEvent (some true) (some 10) (some 20) (some 30)
          (some [])]) ⟨[], true⟩).messages.getLast? = some m ∧
      m.text = concatAll ["Hel", "lo"] ∧
      m.isStreaming = false ∧
      m.sender = .bot ∧
      m.promptTokens = some 10 ∧
      m.completionTokens = some 20 ∧
      m.totalTokens = some 30 ∧
      m.retrievedFiles = (some ([] : List RetrievedFileInfo)).getD [] ∧
      (processEvents 0 ((["Hel", "lo"] : List String).map mkStreamEvent ++
        [mkCompleteEvent (some true) (some 10) (some 20) (some 30)
          (some [])]) ⟨[], true⟩).isLoading = false :=
  ⟨rfl, rfl,
    C1_stream_aggregation 0 ⟨[], true⟩ "Hel" ["lo"] (some true) (some 10)
      (some 20) (some 30) (some []) rfl⟩

/-- C2 counterexample.  The claim says an error envelope arriving while
a message is streaming discards the partially accumulated text from the
message list.  Concretely: after the chunk `"Hel"` and then an error
envelope, the message list still contains the partial bot message with
text `"Hel"` and its streaming flag set, alongside the appended error
message — the partial text is not discarded. -/
theorem C2_counterexample :
    (processEvents 0 [mkStreamEvent "Hel", mkErrorEvent (some "boom")]
      ⟨[], true⟩).messages.map msgView =
    [("Hel", true, false), ("boom", false, true)] := by
  rfl

/-- C2 (amended).  When an error envelope arrives, an explicit error
message is appended to the message list and the loading flag is
cleared, but the partially accumulated streaming message is NOT
removed: whenever the window is not full, the new message list is
exactly the old list (partial streaming message included, its text and
streaming flag untouched) with the error message appended. -/
theorem C2_error_keeps_partial_text (now : Nat) (st : CtxState)
    (emsg : Option String) :
    (handleWebSocketMessage now (mkErrorEvent emsg) st).isLoading = false ∧
    (handleWebSocketMessage now (mkErrorEvent emsg) st).messages =
      capMessages (st.messages ++ [errorChatMessage now emsg]) ∧
    (st.messages.length < MAX_MESSAGES →
      (handleWebSocketMessage now (mkErrorEvent emsg) st).messages =
        st.messages ++ [errorChatMessage now emsg]) := by
  refine ⟨?_, ?_, ?_⟩
  · rw [handle_type_error now _ st rfl]
    rfl
  · rw [handle_type_error now _ st rfl]
    rfl
  · intro hlen
    rw [handle_type_error now _ st rfl]
    exact capMessages_of_lt _ _ hlen

theorem C2_error_keeps_partial_text_witness :
    ((handleWebSocketMessage 7 (mkErrorEvent (some "boom"))
        ⟨[], true⟩).isLoading = false ∧
      (handleWebSocketMessage 7 (mkErrorEvent (some "boom"))
        ⟨[], true⟩).messages =
        capMessages ([] ++ [errorChatMessage 7 (some "boom")]) ∧
      (([] : List ChatMessage).length < MAX_MESSAGES →
        (handleWebSocketMessage 7 (mkErrorEvent (some "boom"))
          ⟨[], true⟩).messages =
          [] ++ [errorChatMessage 7 (some "boom")])) ∧
    ([] : List ChatMessage).length < MAX_MESSAGES :=
  ⟨C2_error_keeps_partial_text 7 ⟨[], true⟩ (some "boom"),
    by decide⟩

/-- C3 counterexample.  The claim says incoming frames carry a tag that
is exactly one of `status`, `chunk`, `complete`, `error`, `response`
and are routed by that tag.  In the code the chunk envelopes are tagged
`stream` (the `chunk` name is the field holding the text): a frame
tagged `chunk` falls through the dispatcher unhandled (the state is
unchanged), while a frame tagged `stream` — outside the claimed tag
set — is routed and changes the state. -/
theorem C3_counterexample :
    handleWebSocketMessage 0
        { emptyResponse "chunk" with chunk := some "Hel" } ⟨[], true⟩ =
      ⟨[], true⟩ ∧
    ¬ (handleWebSocketMessage 0 (mkStreamEvent "Hel") ⟨[], true⟩ =
      ⟨[], true⟩) := by
  exact ⟨rfl, by decide⟩

/-- C3 (amended).  Message dispatch: the literal `pong` frame is
consumed out-of-band (never delivered to handlers); every parsable
frame is delivered verbatim to the registered handlers as a tagged
envelope; an unparsable frame is logged and dropped; and the context
dispatcher acts on the tags `status`, `stream`, `complete`, `response`,
`error` — chunk text rides in `stream`-tagged envelopes — while an
envelope with any other tag leaves the state unchanged (dropped, never
crashing transport or handlers, which are total functions). -/
theorem C3_message_dispatch :
    (∀ (now : Int) (s : MState) (e : WebSocketResponse),
        managerOnMessage now (.json e) s = (s, some e)) ∧
    (∀ (now : Int) (s : MState),
        managerOnMessage now .malformed s = (s, none)) ∧
    (∀ (now : Int) (s : MState),
        managerOnMessage now .pongText s =
          ({ s with lastPongTime := now }, none)) ∧
    (∀ (now : Nat) (e : WebSocketResponse) (st : CtxState),
        e.type ∉ (["status", "stream", "complete", "response", "error"] :
          List String) →
        handleWebSocketMessage now e st = st) :=
  ⟨fun _ _ _ => rfl, fun _ _ => rfl, fun _ _ => rfl,
    fun now e st h => handle_unknown_tag now e st h⟩

theorem C3_message_dispatch_witness :
    handleWebSocketMessage 0 (emptyResponse "chunk") ⟨[], false⟩ =
      ⟨[], false⟩ :=
  C3_message_dispatch.2.2.2 0 (emptyResponse "chunk") ⟨[], false⟩
    (by decide)

/-- C9.  Single in-flight reply: the UI send guard refuses any new
query while a reply is in progress (the state is unchanged and nothing
is sent); a successful send raises the in-progress flag; and the
in-progress flag is cleared exactly by `complete`, `response` and
`error` envelopes while `status` and `stream` envelopes leave it
untouched — so no second stream can be started by the caller until the
current one completes or fails. -/
theorem C9_single_inflight :
    (∀ (now : Nat) (cfg : ChatConfig) (input : String) (connected : Bool)
        (st : CtxState), st.isLoading = true →
        uiHandleSend now cfg input connected st = (st, none)) ∧
    (∀ (now : Nat) (cfg : ChatConfig) (message : String) (connected : Bool)
        (st : CtxState), jsTrim message ≠ "" →
        (hookHandleSendMessage now cfg message connected st).1.isLoading =
          true) ∧
    (∀ (now : Nat) (e : WebSocketResponse) (st : CtxState),
        e.type = "complete" ∨ e.type = "response" ∨ e.type = "error" →
        (handleWebSocketMessage now e st).isLoading = false) ∧
    (∀ (now : Nat) (e : WebSocketResponse) (st : CtxState),
        e.type = "status" ∨ e.type = "stream" →
        (handleWebSocketMessage now e st).isLoading = st.isLoading) := by
  refine ⟨?_, ?_, ?_, ?_⟩
  · intro now cfg input connected st h
    unfold uiHandleSend
    rw [if_pos (Or.inr h)]
  · intro now cfg message connected st h
    unfold hookHandleSendMessage
    rw [if_neg h]
    cases connected <;> rfl
  · intro now e st h
    rcases h with h | h | h
    · rw [handle_type_complete now e st h]
      rfl
    · rw [handle_type_response now e st h]
      rfl
    · rw [handle_type_error now e st h]
      rfl
  · intro now e st h
    rcases h with h | h
    · rw [handle_type_status now e st h]
    · rw [handle_type_stream now e st h]
      unfold streamBranch
      cases hl : st.messages.getLast? with
      | none => rfl
      | some m =>
        split
        · split <;> rfl
        · rfl

theorem C9_single_inflight_witness :
    uiHandleSend 0 ⟨"gemini-1.5-flash", "prompt", 5, 7/10⟩ "hi" true
        ⟨[], true⟩ = (⟨[], true⟩, none) :=
  C9_single_inflight.1 0 ⟨"gemini-1.5-flash", "prompt", 5, 7/10⟩ "hi"
    true ⟨[], true⟩ rfl

/-- C10.  The user-configured retrieval settings are not propagated on
the streaming path: whenever the duplex channel is connected, the
transmitted query envelope always carries
`enable_auto_retrieval = true`, `top_k = 5`,
`similarity_threshold = 0.6`, whatever `topK` and
`similarityThreshold` the hook's configuration holds; two runs with
different configured settings (same model and system prompt) transmit
identical envelopes, because the context's send function accepts only
four data parameters and hard-codes the rest. -/
theorem C10_hardcoded_retrieval_params :
    (∀ (now : Nat) (cfg : ChatConfig) (message : String) (st : CtxState),
        jsTrim message ≠ "" →
        (hookHandleSendMessage now cfg message true st).2 =
          some (.ws
            { message := message
              model := cfg.selectedModel
              selected_files := none
              system_prompt := jsOrNull (some cfg.systemPrompt)
              enable_auto_retrieval := true
              top_k := 5
              similarity_threshold := 6/10 })) ∧
    (∀ (now : Nat) (cfg1 cfg2 : ChatConfig) (message : String)
        (st1 st2 : CtxState),
        cfg1.selectedModel = cfg2.selectedModel →
        cfg1.systemPrompt = cfg2.systemPrompt →
        (hookHandleSendMessage now cfg1 message true st1).2 =
          (hookHandleSendMessage now cfg2 message true st2).2) := by
  constructor
  · intro now cfg message st h
    unfold hookHandleSendMessage
    rw [if_neg h]
    show some (ctxSendMessage now message cfg.selectedModel none
      (jsOrNull (some cfg.systemPrompt)) true st).2 = _
    unfold ctxSendMessage
    rw [if_pos rfl, jsOrNull_idem]
  · intro now cfg1 cfg2 message st1 st2 hm hp
    unfold hookHandleSendMessage
    by_cases htrim : jsTrim message = ""
    · rw [if_pos htrim, if_pos htrim]
    · rw [if_neg htrim, if_neg htrim]
      show some (SendEffect.ws _) = some (SendEffect.ws _)
      rw [hm, hp]

theorem C10_hardcoded_retrieval_params_witness :
    (hookHandleSendMessage 0 ⟨"gemini-1.5-flash", "sp", 21, 9/10⟩ "hi"
        true ⟨[], false⟩).2 =
      some (.ws
        { message := "hi"
          model := "gemini-1.5-flash"
          selected_files := none
          system_prompt := jsOrNull (some "sp")
          enable_auto_retrieval := true
          top_k := 5
          similarity_threshold := 6/10 }) :=
  C10_hardcoded_retrieval_params.1 0 ⟨"gemini-1.5-flash", "sp", 21, 9/10⟩
    "hi" ⟨[], false⟩ (by decide)

/-- C4.  Send precondition: `sendMessage` on a session that is not
connected fails with the not-connected error and leaves the state
untouched (nothing queued, nothing on the channel); on a connected
session the envelope is serialized with exactly the given fields and
appended to the open channel. -/
theorem C4_send_precondition :
    (∀ (s : MState) (msg model : String) (sf : Option (List String))
        (sp : Option String) (ar : Bool) (tk : Nat) (th : ℚ),
        isConnected s = false →
        sendMessageWS s msg model sf sp ar tk th =
          (s, .error "WebSocket is not connected")) ∧
    (∀ (s : MState) (msg model : String) (sf : Option (List String))
        (sp : Option String) (ar : Bool) (tk : Nat) (th : ℚ),
        isConnected s = true →
        sendMessageWS s msg model sf sp ar tk th =
          ({ s with sent := s.sent ++
              [.json ⟨msg, model, sf, jsOrNull sp, ar, tk, th⟩] },
            .ok ())) := by
  constructor
  · intro s msg model sf sp ar tk th h
    unfold sendMessageWS
    rw [h]
    rfl
  · intro s msg model sf sp ar tk th h
    unfold sendMessageWS
    rw [h]
    rfl

theorem C4_send_precondition_witness :
    sendMessageWS
        ⟨false, [], [], 0, 5, 1000, true, .disconnected, false, false, 0,
          []⟩ "hello" "gemini-1.5-flash" none none true 5 (6/10) =
      (⟨false, [], [], 0, 5, 1000, true, .disconnected, false, false, 0,
        []⟩, .error "WebSocket is not connected") :=
  C4_send_precondition.1
    ⟨false, [], [], 0, 5, 1000, true, .disconnected, false, false, 0, []⟩
    "hello" "gemini-1.5-flash" none none true 5 (6/10) rfl

theorem attemptReconnect_exhaust (n : ℕ) :
    ∀ (s : MState) (more : List Bool),
      s.shouldReconnect = true →
      s.reconnectAttempts + n = s.maxReconnectAttempts →
      (attemptReconnect s (List.replicate n false ++ more)).status =
        .error ∧
      (attemptReconnect s
        (List.replicate n false ++ more)).shouldReconnect = false ∧
      (attemptReconnect s
        (List.replicate n false ++ more)).reconnectAttempts =
        s.maxReconnectAttempts := by
  induction n with
  | zero =>
    intro s more hsr hn
    have hguard : s.maxReconnectAttempts ≤ s.reconnectAttempts := by omega
    rw [List.replicate_zero, List.nil_append]
    unfold attemptReconnect
    rw [if_pos hguard]
    exact ⟨rfl, rfl, by simpa using hn⟩
  | succ k ih =>
    intro s more hsr hn
    have hguard : ¬ s.maxReconnectAttempts ≤ s.reconnectAttempts := by
      omega
    rw [List.replicate_succ, List.cons_append]
    unfold attemptReconnect
    rw [if_neg hguard]
    simp only [hsr]
    exact ih _ more rfl (by simp; omega)

/-- C5.  Reconnect exhaustion is terminal: once every one of the
remaining allowed attempts has failed, the status is `error` and the
willingness flag is cleared, so no further automatic reconnect happens
(in particular `onclose` no longer re-enters the reconnect loop); a
successful explicit `connect()` resets the attempt counter to 0. -/
theorem C5_reconnect_exhaustion :
    (∀ (n : ℕ) (s : MState) (more : List Bool),
        s.shouldReconnect = true →
        s.reconnectAttempts + n = s.maxReconnectAttempts →
        (attemptReconnect s (List.replicate n false ++ more)).status =
          .error ∧
        (attemptReconnect s
          (List.replicate n false ++ more)).shouldReconnect = false) ∧
    (∀ (s : MState) (outcomes : List Bool) (wasClean : Bool),
        s.shouldReconnect = false →
        onClose wasClean s outcomes =
          { s with heartbeatActive := false, wsOpen := false,
                   status := .disconnected }) ∧
    (∀ (s : MState) (rest : List Bool),
        s.connectionPromise = false → isConnected s = false →
        (connectCall s true rest).status = .connected ∧
        (connectCall s true rest).reconnectAttempts = 0) := by
  refine ⟨?_, ?_, ?_⟩
  · intro n s more h1 h2
    exact ⟨(attemptReconnect_exhaust n s more h1 h2).1,
      (attemptReconnect_exhaust n s more h1 h2).2.1⟩
  · intro s outcomes wasClean h
    unfold onClose
    rw [if_neg]
    simp [h]
  · intro s rest h1 h2
    have hcond : ¬ (s.connectionPromise = true ∨ isConnected s = true) := by
      unfold isConnected at h2 ⊢
      rw [h1, h2]
      simp
    unfold connectCall
    rw [if_neg hcond]
    exact ⟨rfl, rfl⟩

theorem C5_reconnect_exhaustion_witness :
    ((true : Bool) = true ∧ (0 : ℕ) + 5 = MAX_RECONNECT_ATTEMPTS) ∧
    (attemptReconnect
      ⟨false, [], [], 0, MAX_RECONNECT_ATTEMPTS, BASE_RECONNECT_DELAY,
        true, .connecting, false, false, 0, []⟩
      (List.replicate 5 false ++ [])).status = .error ∧
    (attemptReconnect
      ⟨false, [], [], 0, MAX_RECONNECT_ATTEMPTS, BASE_RECONNECT_DELAY,
        true, .connecting, false, false, 0, []⟩
      (List.replicate 5 false ++ [])).shouldReconnect = false :=
  ⟨⟨rfl, by decide⟩,
    C5_reconnect_exhaustion.1 5
      ⟨false, [], [], 0, MAX_RECONNECT_ATTEMPTS, BASE_RECONNECT_DELAY,
        true, .connecting, false, false, 0, []⟩ [] rfl (by decide)⟩

/-- C6.  Heartbeat liveness: while connected the interval timer is
armed with a 30000 ms period and each firing sends the literal `ping`;
the `pong` acknowledgment is consumed out-of-band (it refreshes
`lastPongTime` and never reaches the JSON envelope handlers); and when
no pong has been observed for more than 35000 ms the tick forces a
reconnect cycle — the tick consumes no close event, so this happens
even though the socket reported no explicit close. -/
theorem C6_heartbeat :
    (∀ s : MState,
        startHeartbeat s = ({ s with heartbeatActive := true }, 30000)) ∧
    (∀ (now : Int) (s : MState),
        managerOnMessage now .pongText s =
          ({ s with lastPongTime := now }, none)) ∧
    (∀ (now : Int) (s : MState), isConnected s = true →
        35000 < now - s.lastPongTime →
        heartbeatTick now s = (s, some .forceReconnect)) ∧
    (∀ (now : Int) (s : MState), isConnected s = true →
        now - s.lastPongTime ≤ 35000 →
        heartbeatTick now s =
          ({ s with sent := s.sent ++ [.ping] }, some .sendPing)) := by
  refine ⟨fun s => rfl, fun now s => rfl, ?_, ?_⟩
  · intro now s h1 h2
    unfold heartbeatTick
    rw [if_pos h1, if_pos h2]
  · intro now s h1 h2
    unfold heartbeatTick
    rw [if_pos h1, if_neg (not_lt.mpr h2)]

theorem C6_heartbeat_witness :
    heartbeatTick 40000
        ⟨true, [], [], 0, 5, 1000, true, .connected, false, true, 0, []⟩ =
      (⟨true, [], [], 0, 5, 1000, true, .connected, false, true, 0, []⟩,
        some .forceReconnect) :=
  C6_heartbeat.2.2.1 40000
    ⟨true, [], [], 0, 5, 1000, true, .connected, false, true, 0, []⟩
    rfl (by decide)

/-- C7.  Backoff policy: with the base delay of 1000 ms, for every
attempt number `n ≥ 1` and jitter `0 ≤ j < 1000` the computed reconnect
delay equals `min (1000·2^(n−1) + j) 30000` milliseconds, and in
particular it never exceeds the 30000 ms clamp. -/
theorem C7_backoff_policy (s : MState) (n : ℕ) (j : ℚ)
    (hdelay : s.reconnectDelay = BASE_RECONNECT_DELAY)
    (hn : s.reconnectAttempts = n) (_h1 : 1 ≤ n)
    (_hj0 : 0 ≤ j) (_hj1 : j < 1000) :
    calculateReconnectDelay s j = min (1000 * 2 ^ (n - 1) + j) 30000 ∧
    calculateReconnectDelay s j ≤ 30000 := by
  constructor
  · unfold calculateReconnectDelay
    rw [hdelay, hn]
    rfl
  · unfold calculateReconnectDelay
    exact min_le_right _ _

theorem C7_backoff_policy_witness :
    ((⟨false, [], [], 3, 5, BASE_RECONNECT_DELAY, true, .connecting,
        false, false, 0, []⟩ : MState).reconnectDelay =
          BASE_RECONNECT_DELAY ∧
      (1 : ℕ) ≤ 3 ∧ (0 : ℚ) ≤ 500 ∧ (500 : ℚ) < 1000) ∧
    calculateReconnectDelay
        ⟨false, [], [], 3, 5, BASE_RECONNECT_DELAY, true, .connecting,
          false, false, 0, []⟩ 500 =
      min (1000 * 2 ^ (3 - 1) + 500) 30000 ∧
    calculateReconnectDelay
        ⟨false, [], [], 3, 5, BASE_RECONNECT_DELAY, true, .connecting,
          false, false, 0, []⟩ 500 ≤ 30000 :=
  ⟨⟨rfl, by decide, by decide, by decide⟩,
    C7_backoff_policy
      ⟨false, [], [], 3, 5, BASE_RECONNECT_DELAY, true, .connecting,
        false, false, 0, []⟩ 3 500 rfl rfl (by decide) (by decide)
      (by decide)⟩

/-- C8.  Disconnect frame condition: a permanent disconnect clears both
registered handler sets and suppresses reconnect (besides stopping the
heartbeat and closing the socket); a non-permanent disconnect closes
the socket and stops the heartbeat but leaves both handler sets, the
reconnect permission and the reported status unchanged. -/
theorem C8_disconnect_frame (s : MState) :
    (disconnect true s).messageHandlers = [] ∧
    (disconnect true s).statusHandlers = [] ∧
    (disconnect true s).shouldReconnect = false ∧
    (disconnect true s).heartbeatActive = false ∧
    (disconnect true s).wsOpen = false ∧
    (disconnect true s).status = .disconnected ∧
    (disconnect false s).messageHandlers = s.messageHandlers ∧
    (disconnect false s).statusHandlers = s.statusHandlers ∧
    (disconnect false s).shouldReconnect = s.shouldReconnect ∧
    (disconnect false s).wsOpen = false ∧
    (disconnect false s).heartbeatActive = false ∧
    (disconnect false s).status = s.status :=
  ⟨rfl, rfl, rfl, rfl, rfl, rfl, rfl, rfl, rfl, rfl, rfl, rfl⟩

end GeminiRag
